import Mathlib

/-!
Verification development for the multi-omics biomarker-discovery pipeline
(scripts 00-08).  The differential-abundance engine of
`scripts/02_mass_spec_analysis.py` (`analyze_proteomics`, lines 72-108) and
`scripts/03_metabolomics_integration.py` (`analyze_metabolomics`, lines
115-140), the cross-layer correlator of `scripts/06_omics_integration.py`
(`correlate_omics_layers`, lines 47-140), the annotation mapper of
`scripts/04_pathway_mapping.py` (`map_proteins_to_pathways`, lines 73-110,
with its hardcoded tables), and the orchestrator of
`scripts/00_run_full_pipeline.py` (`main`, lines 36-68) are embedded as
executable Lean functions over exact rationals.

Modelling conventions:
* Python float values are modelled by `PyF`: either `nan` or an exact
  rational.  All comparisons involving `nan` are `false`, arithmetic
  propagates `nan`, and `min(a, b)` is CPython's `b if b < a else a` -- so
  `min(nan * n, 1.0) = nan`, exactly as in the scripts.  The threshold
  constants 0.05 and 0.5 and the integer factor `n` are exactly
  representable in binary floating point, so rational arithmetic is a
  faithful model for the comparisons the claims are about.
* Rational arithmetic is implemented through the kernel-reducible
  primitives `mkRat` / `Rat.divInt`, with lemmas (`qAdd_eq` etc.) proving
  each operation equal to the standard one on `ℚ`.
* The external statistical calls (`scipy.stats.ttest_ind`, `pearsonr`,
  `spearmanr`), which the spec declares out-of-scope external collaborators,
  are oracle parameters of the embedded functions.
* `pandas.sort_values('padj')` is modelled as a stable sort whose key order
  puts `nan` last (pandas' `na_position='last'`); on the small concrete
  inputs used below numpy's sort routine is an insertion sort, which is
  stable.
* The two standard-deviation columns of `analyze_proteomics` (lines 93-94)
  are not modelled: they require real square roots and are never read by
  any downstream consumer or claim.
-/

namespace MultiOmics

/-- Rational addition via the kernel-reducible smart constructor. -/
def qAdd (a b : ℚ) : ℚ := mkRat (a.num * b.den + b.num * a.den) (a.den * b.den)

/-- Rational subtraction via the kernel-reducible smart constructor. -/
def qSub (a b : ℚ) : ℚ := mkRat (a.num * b.den - b.num * a.den) (a.den * b.den)

/-- Rational multiplication via the kernel-reducible smart constructor. -/
def qMul (a b : ℚ) : ℚ := mkRat (a.num * b.num) (a.den * b.den)

/-- Rational division via the kernel-reducible `Rat.divInt`. -/
def qDiv (a b : ℚ) : ℚ := Rat.divInt (a.num * b.den) (a.den * b.num)

/-- Rational absolute value via the kernel-reducible comparison. -/
def qAbs (a : ℚ) : ℚ := if a < 0 then mkRat (-a.num) a.den else a

theorem qAdd_eq (a b : ℚ) : qAdd a b = a + b := by
  have ha : (a.den : ℚ) ≠ 0 := by exact_mod_cast a.den_pos.ne'
  have hb : (b.den : ℚ) ≠ 0 := by exact_mod_cast b.den_pos.ne'
  conv_rhs => rw [← Rat.num_div_den a, ← Rat.num_div_den b]
  rw [div_add_div _ _ ha hb, qAdd, Rat.mkRat_eq_divInt, Rat.divInt_eq_div]
  push_cast
  ring_nf

theorem qSub_eq (a b : ℚ) : qSub a b = a - b := by
  have ha : (a.den : ℚ) ≠ 0 := by exact_mod_cast a.den_pos.ne'
  have hb : (b.den : ℚ) ≠ 0 := by exact_mod_cast b.den_pos.ne'
  conv_rhs => rw [← Rat.num_div_den a, ← Rat.num_div_den b]
  rw [div_sub_div _ _ ha hb, qSub, Rat.mkRat_eq_divInt, Rat.divInt_eq_div]
  push_cast
  ring_nf

theorem qMul_eq (a b : ℚ) : qMul a b = a * b := by
  conv_rhs => rw [← Rat.num_div_den a, ← Rat.num_div_den b]
  rw [div_mul_div_comm, qMul, Rat.mkRat_eq_divInt, Rat.divInt_eq_div]
  push_cast
  ring_nf

theorem qDiv_eq (a b : ℚ) : qDiv a b = a / b := by
  rw [qDiv, Rat.divInt_eq_div]
  rcases eq_or_ne b 0 with rfl | hb
  · simp
  · have ha : (a.den : ℚ) ≠ 0 := by exact_mod_cast a.den_pos.ne'
    have hbd : (b.den : ℚ) ≠ 0 := by exact_mod_cast b.den_pos.ne'
    have hbn : (b.num : ℚ) ≠ 0 := by exact_mod_cast Rat.num_ne_zero.2 hb
    conv_rhs => rw [← Rat.num_div_den a, ← Rat.num_div_den b]
    rw [div_div_div_comm]
    push_cast
    field_simp
    left
    ring

theorem qAbs_eq (a : ℚ) : qAbs a = |a| := by
  rw [qAbs]
  split_ifs with h
  · rw [abs_of_neg h, Rat.mkRat_eq_divInt, Rat.divInt_eq_div]
    conv_rhs => rw [← Rat.num_div_den a]
    push_cast
    rw [neg_div]
  · rw [abs_of_nonneg (not_lt.1 h)]

/-- Sum of a list of rationals via `qAdd`. -/
def qSum : List ℚ → ℚ
  | [] => 0
  | x :: xs => qAdd x (qSum xs)

theorem qSum_eq (xs : List ℚ) : qSum xs = xs.sum := by
  induction xs with
  | nil => rfl
  | cons x xs ih => rw [qSum, qAdd_eq, ih, List.sum_cons]

/-- Python float value: `nan`, or an exact rational. -/
inductive PyF where
  | nan : PyF
  | val : ℚ → PyF
deriving DecidableEq, Repr

namespace PyF

/-- Python `<` on floats: any comparison with `nan` is false. -/
def lt : PyF → PyF → Bool
  | val p, val q => decide (p < q)
  | _, _ => false

/-- Python `<=` on floats: any comparison with `nan` is false. -/
def le : PyF → PyF → Bool
  | val p, val q => decide (p ≤ q)
  | _, _ => false

/-- Float multiplication, `nan`-propagating. -/
def mul : PyF → PyF → PyF
  | val p, val q => val (qMul p q)
  | _, _ => nan

/-- Float subtraction, `nan`-propagating. -/
def sub : PyF → PyF → PyF
  | val p, val q => val (qSub p q)
  | _, _ => nan

/-- Python `abs`, `nan`-propagating. -/
def fabs : PyF → PyF
  | val p => val (qAbs p)
  | nan => nan

/-- CPython `min(a, b)`: returns `b` if `b < a`, else `a`; hence
`min(nan, x) = nan`. -/
def pymin (a b : PyF) : PyF := if lt b a then b else a

end PyF

/-- Key order used to model `sort_values('padj', na_position='last')`:
`nan` compares above every number. -/
def nanLastLe : PyF → PyF → Bool
  | _, PyF.nan => true
  | PyF.nan, PyF.val _ => false
  | PyF.val p, PyF.val q => decide (p ≤ q)

/-- numpy `mean` of a vector: `nan` on the empty vector. -/
def npMean (xs : List ℚ) : PyF :=
  if xs.isEmpty then PyF.nan else PyF.val (qDiv (qSum xs) (xs.length : ℚ))

/-- Sample metadata: list of `(sample_id, condition)` rows, as in the
`metadata` DataFrame of scripts 02 and 03. -/
abbrev Metadata := List (String × String)

/-- An abundance DataFrame: each feature row is its identifier together
with its per-sample value (column lookup by sample id, as
`df.loc[feature, samples]` does). -/
abbrev DataFrame := List (String × (String → ℚ))

/-- Line 69 of script 02 and line 112 of script 03:
`metadata[metadata['condition'] == 'Infected']['sample_id']`. -/
def infectedSamples (md : Metadata) : List String :=
  (md.filter (fun s => s.2 == "Infected")).map (·.1)

/-- Line 70 of script 02 and line 113 of script 03:
`metadata[metadata['condition'] == 'Control']['sample_id']`. -/
def controlSamples (md : Metadata) : List String :=
  (md.filter (fun s => s.2 == "Control")).map (·.1)

/-- One row of the per-feature `results` list (script 02 lines 87-95 /
script 03 lines 127-133), before the `padj` column is added. -/
structure RawRow where
  feature : String
  meanInfected : PyF
  meanControl : PyF
  log2FoldChange : PyF
  pvalue : PyF
deriving DecidableEq, Repr

/-- One row of `results_df` after the `padj` column is added (script 02
line 102 / script 03 line 136). -/
structure ResRow where
  feature : String
  meanInfected : PyF
  meanControl : PyF
  log2FoldChange : PyF
  pvalue : PyF
  padj : PyF
deriving DecidableEq, Repr

/-- A `ttest` oracle stands for the external `scipy.stats.ttest_ind` call
(p-value component): it maps the two group-value vectors to a p-value. -/
abbrev TTest := List ℚ → List ℚ → PyF

/-- The loop body of script 02 lines 73-95 / script 03 lines 116-133:
partition the feature's values by condition, take the two group means,
their difference as `log2FoldChange`, and the oracle's p-value. -/
def rawRow (tt : TTest) (md : Metadata) (p : String × (String → ℚ)) : RawRow :=
  let iv := (infectedSamples md).map p.2
  let cv := (controlSamples md).map p.2
  { feature := p.1
    meanInfected := npMean iv
    meanControl := npMean cv
    log2FoldChange := PyF.sub (npMean iv) (npMean cv)
    pvalue := tt iv cv }

/-- Script 02 line 102 / script 03 line 136:
`padj = min(pvalue * n, 1.0)` where `n = len(results_df)`. -/
def withPadj (n : ℕ) (r : RawRow) : ResRow :=
  { feature := r.feature
    meanInfected := r.meanInfected
    meanControl := r.meanControl
    log2FoldChange := r.log2FoldChange
    pvalue := r.pvalue
    padj := PyF.pymin (PyF.mul r.pvalue (PyF.val (n : ℚ))) (PyF.val 1) }

/-- The significance mask of script 02 lines 105-107 / script 03 lines
138-139: `(padj < 0.05) & (abs(log2FoldChange) > 0.5)`.  The float
constants 0.05 and 0.5 are written `mkRat 1 20` and `mkRat 1 2`. -/
def sigPred (r : ResRow) : Bool :=
  PyF.lt r.padj (PyF.val (mkRat 1 20)) && PyF.lt (PyF.val (mkRat 1 2)) (PyF.fabs r.log2FoldChange)

/-- Row order used by `sort_values('padj')`. -/
def padjLe (a b : ResRow) : Prop := nanLastLe a.padj b.padj = true

instance : DecidableRel padjLe := fun _ _ => decEq _ _

instance : IsTotal ResRow padjLe := by
  constructor
  intro a b
  unfold padjLe nanLastLe
  rcases a.padj with _ | p <;> rcases b.padj with _ | q <;> simp
  exact le_total p q

instance : IsTrans ResRow padjLe := by
  constructor
  intro a b c
  unfold padjLe nanLastLe
  rcases a.padj with _ | p <;> rcases b.padj with _ | q <;> rcases c.padj with _ | r <;> simp
  exact fun h h2 => le_trans h h2

/-- Shared body of `analyze_proteomics` (script 02 lines 72-108) and
`analyze_metabolomics` (script 03 lines 115-140), which are line-for-line
the same computation up to column names: build one result row per feature,
add `padj = min(pvalue * len(results_df), 1.0)`, filter the significance
mask, and sort the filtered rows ascending by `padj`.  Returns the pair
`(results_df, significant_rows)`. -/
def diffAbundance (tt : TTest) (md : Metadata) (df : DataFrame) :
    List ResRow × List ResRow :=
  let rows0 := df.map (rawRow tt md)
  let n := rows0.length
  let results := rows0.map (withPadj n)
  let sig := List.insertionSort padjLe (results.filter sigPred)
  (results, sig)

/-- `analyze_proteomics` of script 02 (lines 72-108), with the scipy
t-test as an oracle parameter. -/
def analyzeProteomics : TTest → Metadata → DataFrame → List ResRow × List ResRow :=
  diffAbundance

/-- `analyze_metabolomics` of script 03 (lines 115-140), with the scipy
t-test as an oracle parameter. -/
def analyzeMetabolomics : TTest → Metadata → DataFrame → List ResRow × List ResRow :=
  diffAbundance

/-- Python `dict.get(key, default)` over an association list. -/
def dictGet {α : Type} (t : List (String × α)) (k : String) (d : α) : α :=
  match t.find? (fun p => p.1 == k) with
  | some p => p.2
  | none => d

/-- A differential-result table as the correlator of script 06 sees it
after `set_index`: feature identifier with its `log2FoldChange` value. -/
abbrev FCTable := List (String × ℚ)

/-- Column lookup `table.loc[x, 'log2FoldChange']` by feature id.  Inside
`correlate_omics_layers` it is only applied to members of the common index,
so the default is never observable. -/
def fcLookup (t : FCTable) (x : String) : ℚ := dictGet t x 0

/-- One record of `correlation_results` (script 06 lines 76-83 and
123-130). -/
structure CorrRecord where
  comparison : String
  nFeatures : ℕ
  pearsonR : PyF
  pearsonP : PyF
  spearmanR : PyF
  spearmanP : PyF
deriving DecidableEq, Repr

/-- A correlation oracle stands for the external scipy `pearsonr` or
`spearmanr` call: it maps the two matched vectors to `(r, p)`. -/
abbrev CorrTest := List ℚ → List ℚ → PyF × PyF

/-- Validity of an enumeration of `list(set(a.index) & set(b.index))`
(script 06 line 66): Python yields the intersection's elements, each
exactly once, in an unspecified (hash-dependent) order. -/
def validCommonEnum (e : List String) (ra pt : FCTable) : Prop :=
  e.Nodup ∧ ∀ x, x ∈ e ↔ (x ∈ ra.map Prod.fst ∧ x ∈ pt.map Prod.fst)

/-- The RNA-seq-vs-proteomics branch of `correlate_omics_layers` (script
06 lines 59-86): identifier matching over the index intersection, skipped
unless both tables loaded and more than one feature matched. -/
def corrBranch1 (pe sp : CorrTest) (rnaseq proteomics : Option FCTable)
    (commonEnum : List String) : List CorrRecord :=
  match rnaseq, proteomics with
  | some rt, some pt =>
    if 1 < commonEnum.length then
      [{ comparison := "RNA-seq vs Proteomics"
         nFeatures := commonEnum.length
         pearsonR := (pe (commonEnum.map (fcLookup rt)) (commonEnum.map (fcLookup pt))).1
         pearsonP := (pe (commonEnum.map (fcLookup rt)) (commonEnum.map (fcLookup pt))).2
         spearmanR := (sp (commonEnum.map (fcLookup rt)) (commonEnum.map (fcLookup pt))).1
         spearmanP := (sp (commonEnum.map (fcLookup rt)) (commonEnum.map (fcLookup pt))).2 }]
    else []
  | _, _ => []

/-- The proteomics-vs-metabolomics branch of `correlate_omics_layers`
(script 06 lines 107-133): positional matching of the first
`min(5, n_a, n_b)` rows, skipped unless both tables loaded and more than
one pair results. -/
def corrBranch2 (pe sp : CorrTest) (proteomics metabolomics : Option FCTable) :
    List CorrRecord :=
  match proteomics, metabolomics with
  | some pt, some mt =>
    if 1 < min 5 (min pt.length mt.length) then
      [{ comparison := "Proteomics vs Metabolomics"
         nFeatures := min 5 (min pt.length mt.length)
         pearsonR := (pe ((pt.take (min 5 (min pt.length mt.length))).map Prod.snd)
             ((mt.take (min 5 (min pt.length mt.length))).map Prod.snd)).1
         pearsonP := (pe ((pt.take (min 5 (min pt.length mt.length))).map Prod.snd)
             ((mt.take (min 5 (min pt.length mt.length))).map Prod.snd)).2
         spearmanR := (sp ((pt.take (min 5 (min pt.length mt.length))).map Prod.snd)
             ((mt.take (min 5 (min pt.length mt.length))).map Prod.snd)).1
         spearmanP := (sp ((pt.take (min 5 (min pt.length mt.length))).map Prod.snd)
             ((mt.take (min 5 (min pt.length mt.length))).map Prod.snd)).2 }]
    else []
  | _, _ => []

/-- `correlate_omics_layers` of script 06 (lines 47-140), with the data
tables (as loaded by `load_omics_data`; `none` marks a missing file), the
scipy correlation calls, and the hash-dependent iteration order of
`list(set(rnaseq.index) & set(proteomics.index))` as parameters.  Returns
`none` for the early `return None` of line 54, otherwise the
`correlation_results` list.  Plot drawing (lines 88-105) is not modelled. -/
def correlateOmicsLayers (pe sp : CorrTest)
    (rnaseq proteomics metabolomics : Option FCTable)
    (commonEnum : List String) : Option (List CorrRecord) :=
  if ([rnaseq.isSome, proteomics.isSome, metabolomics.isSome].count true) < 2 then
    none
  else
    some (corrBranch1 pe sp rnaseq proteomics commonEnum ++
      corrBranch2 pe sp proteomics metabolomics)

/-- The `uniprot_mapping` dictionary of script 04 lines 25-44. -/
def uniprotMappingTable : List (String × String) :=
  [("IL6", "P05231"), ("TNF", "P01375"), ("IFNG", "P01579"), ("IL1B", "P01584"),
   ("IL12A", "P29460"), ("CXCL10", "P02778"), ("CXCL9", "P02778"),
   ("CD8A", "P01732"), ("CD4", "P01730"), ("CD19", "P15391"),
   ("NFKB1", "P19838"), ("STAT1", "P42224"), ("IRF7", "P13833"),
   ("TLR4", "O00206"), ("JAK1", "P23458"), ("JAK2", "O60674"),
   ("MAPK1", "P28482"), ("MAPK3", "P04637")]

/-- The `kegg_pathways` dictionary of script 04 lines 53-69
(`fetch_kegg_pathways` ignores its argument and returns this table). -/
def keggPathwaysTable : List (String × List String) :=
  [("IL6", ["hsa04620: Toll-like receptor signaling pathway",
            "hsa04060: Cytokine-cytokine receptor interaction"]),
   ("TNF", ["hsa04060: Cytokine-cytokine receptor interaction",
            "hsa04668: TNF signaling pathway"]),
   ("IFNG", ["hsa04060: Cytokine-cytokine receptor interaction",
             "hsa04062: Chemokine signaling pathway"]),
   ("IL1B", ["hsa04060: Cytokine-cytokine receptor interaction",
             "hsa04620: Toll-like receptor signaling pathway"]),
   ("NFKB1", ["hsa04620: Toll-like receptor signaling pathway",
              "hsa04668: TNF signaling pathway"]),
   ("STAT1", ["hsa04620: Toll-like receptor signaling pathway",
              "hsa04687: Jak-STAT signaling pathway"]),
   ("JAK1", ["hsa04687: Jak-STAT signaling pathway"]),
   ("JAK2", ["hsa04687: Jak-STAT signaling pathway"]),
   ("TLR4", ["hsa04620: Toll-like receptor signaling pathway"])]

/-- One row of the `sig_proteins_df` input of `map_proteins_to_pathways`
(the columns the function reads). -/
structure SigRow where
  protein : String
  log2FoldChange : PyF
  padj : PyF
deriving DecidableEq, Repr

/-- One record of the `pathway_mapping` output list (script 04 lines
87-93). -/
structure PathwayRecord where
  protein : String
  uniprotId : String
  pathway : String
  log2FoldChange : PyF
  padj : PyF
deriving DecidableEq, Repr

/-- The per-row loop body of script 04 lines 79-93: one edge per KEGG
pathway of the row's protein (`kegg_pathways.get(protein, [])`). -/
def pathwayEdges (um : List (String × String)) (row : SigRow) : List PathwayRecord :=
  (dictGet keggPathwaysTable row.protein []).map (fun pw =>
    { protein := row.protein
      uniprotId := dictGet um row.protein "Unknown"
      pathway := pw
      log2FoldChange := row.log2FoldChange
      padj := row.padj })

/-- The fallback block of script 04 lines 95-107: if no edge was produced,
edges for five hardcoded proteins with fabricated `log2FoldChange = 2.0`
and `padj = 0.001`. -/
def fallbackEdges (um : List (String × String)) : List PathwayRecord :=
  (["IL6", "TNF", "IFNG", "NFKB1", "STAT1"]).flatMap (fun p =>
    (dictGet keggPathwaysTable p []).map (fun pw =>
      { protein := p
        uniprotId := dictGet um p "Unknown"
        pathway := pw
        log2FoldChange := PyF.val 2
        padj := PyF.val (mkRat 1 1000) }))

/-- `map_proteins_to_pathways` of script 04 (lines 73-110): builds the
edge list, falling back to the hardcoded block when it is empty.  CSV
output and printing are not modelled. -/
def mapProteinsToPathways (sig : List SigRow) (um : List (String × String)) :
    List PathwayRecord :=
  let primary := sig.flatMap (pathwayEdges um)
  if primary.isEmpty then fallbackEdges um else primary

/-- One pipeline stage as the orchestrator of script 00 sees it: its
description, whether the script file exists, and whether running it
returns exit code 0. -/
structure Script where
  descr : String
  onDisk : Bool
  runSucceeds : Bool
deriving DecidableEq, Repr

/-- The stage loop of `main` in script 00 (lines 57-68): a missing script
is recorded as failed and the loop continues (`continue`); a failing run
is recorded and the loop stops (`break`).  Returns the `results` dict as
an insertion-ordered association list. -/
def runPipeline : List Script → List (String × Bool)
  | [] => []
  | s :: rest =>
    if s.onDisk = false then (s.descr, false) :: runPipeline rest
    else if s.runSucceeds then (s.descr, true) :: runPipeline rest
    else [(s.descr, false)]

/-! Helper lemmas about the differential-abundance engine. -/

theorem diffAbundance_fst (tt : TTest) (md : Metadata) (df : DataFrame) :
    (diffAbundance tt md df).1 = (df.map (rawRow tt md)).map (withPadj df.length) := by
  simp [diffAbundance]

theorem diffAbundance_snd (tt : TTest) (md : Metadata) (df : DataFrame) :
    (diffAbundance tt md df).2 =
      List.insertionSort padjLe ((diffAbundance tt md df).1.filter sigPred) := rfl

theorem mem_diffAbundance_sig (tt : TTest) (md : Metadata) (df : DataFrame) (r : ResRow) :
    r ∈ (diffAbundance tt md df).2 ↔
      r ∈ (diffAbundance tt md df).1 ∧ sigPred r = true := by
  rw [diffAbundance_snd, List.mem_insertionSort, List.mem_filter]

theorem diffAbundance_padj (tt : TTest) (md : Metadata) (df : DataFrame) (r : ResRow)
    (hr : r ∈ (diffAbundance tt md df).1) :
    r.padj =
      PyF.pymin (PyF.mul r.pvalue (PyF.val (((diffAbundance tt md df).1.length : ℕ) : ℚ)))
        (PyF.val 1) := by
  rw [diffAbundance_fst] at hr ⊢
  rcases List.mem_map.1 hr with ⟨r0, _, rfl⟩
  simp [withPadj, List.length_map]

theorem diffAbundance_length (tt : TTest) (md : Metadata) (df : DataFrame) :
    (diffAbundance tt md df).1.length = df.length := by
  rw [diffAbundance_fst, List.length_map, List.length_map]

/-! Claim theorems. -/

/-- C1: in the continuous-intensity pipelines (`analyze_proteomics` of
script 02 and `analyze_metabolomics` of script 03), a feature's result row
is in the significant subset iff `adjusted_p_value < 0.05` and
`|log2FoldChange| > 0.5`, both strict; membership in the full result table
plus those two comparisons is the whole condition. -/
theorem C1_significant_iff (tt : TTest) (md : Metadata) (df : DataFrame) (r : ResRow) :
    (r ∈ (analyzeProteomics tt md df).2 ↔
        r ∈ (analyzeProteomics tt md df).1 ∧
          PyF.lt r.padj (PyF.val (mkRat 1 20)) = true ∧
          PyF.lt (PyF.val (mkRat 1 2)) (PyF.fabs r.log2FoldChange) = true) ∧
    (r ∈ (analyzeMetabolomics tt md df).2 ↔
        r ∈ (analyzeMetabolomics tt md df).1 ∧
          PyF.lt r.padj (PyF.val (mkRat 1 20)) = true ∧
          PyF.lt (PyF.val (mkRat 1 2)) (PyF.fabs r.log2FoldChange) = true) := by
  constructor <;>
  · simp only [analyzeProteomics, analyzeMetabolomics]
    rw [mem_diffAbundance_sig]
    simp [sigPred, Bool.and_eq_true]

/-- Witness for C1 at a concrete run: a single-feature dataset whose row
(fold change 2, adjusted p-value 1/100) is significant. -/
theorem C1_significant_iff_witness :
    ({ feature := "F1", meanInfected := PyF.val 3, meanControl := PyF.val 1,
       log2FoldChange := PyF.val 2, pvalue := PyF.val (mkRat 1 100),
       padj := PyF.val (mkRat 1 100) } : ResRow) ∈
      (analyzeProteomics (fun _ _ => PyF.val (mkRat 1 100))
        [("S1", "Infected"), ("S2", "Infected"), ("S3", "Control"), ("S4", "Control")]
        [("F1", fun s => if s == "S1" || s == "S2" then 3 else 1)]).2 := by
  exact (C1_significant_iff (fun _ _ => PyF.val (mkRat 1 100))
    [("S1", "Infected"), ("S2", "Infected"), ("S3", "Control"), ("S4", "Control")]
    [("F1", fun s => if s == "S1" || s == "S2" then 3 else 1)] _).1.2
    ⟨by decide, by decide, by decide⟩

/-- C2: in both continuous-intensity pipelines, every row's adjusted
p-value equals `min(pvalue * n, 1.0)` with `n` the number of tested
features; the adjusted value never exceeds 1.0; and for a numeric raw
p-value in `[0, 1]` the adjusted value is a numeric value between the raw
p-value and 1 (Bonferroni monotonicity). -/
theorem C2_padj_formula (tt : TTest) (md : Metadata) (df : DataFrame) :
    ((analyzeProteomics tt md df).1.length = df.length ∧
      (∀ r ∈ (analyzeProteomics tt md df).1,
        r.padj = PyF.pymin
          (PyF.mul r.pvalue (PyF.val (((analyzeProteomics tt md df).1.length : ℕ) : ℚ)))
          (PyF.val 1)) ∧
      (∀ r ∈ (analyzeProteomics tt md df).1, PyF.lt (PyF.val 1) r.padj = false) ∧
      (∀ r ∈ (analyzeProteomics tt md df).1, ∀ q : ℚ, r.pvalue = PyF.val q →
        0 ≤ q → q ≤ 1 → ∃ q2 : ℚ, r.padj = PyF.val q2 ∧ q ≤ q2 ∧ q2 ≤ 1)) ∧
    ((analyzeMetabolomics tt md df).1.length = df.length ∧
      (∀ r ∈ (analyzeMetabolomics tt md df).1,
        r.padj = PyF.pymin
          (PyF.mul r.pvalue (PyF.val (((analyzeMetabolomics tt md df).1.length : ℕ) : ℚ)))
          (PyF.val 1)) ∧
      (∀ r ∈ (analyzeMetabolomics tt md df).1, PyF.lt (PyF.val 1) r.padj = false) ∧
      (∀ r ∈ (analyzeMetabolomics tt md df).1, ∀ q : ℚ, r.pvalue = PyF.val q →
        0 ≤ q → q ≤ 1 → ∃ q2 : ℚ, r.padj = PyF.val q2 ∧ q ≤ q2 ∧ q2 ≤ 1)) := by
  have key : (diffAbundance tt md df).1.length = df.length ∧
      (∀ r ∈ (diffAbundance tt md df).1,
        r.padj = PyF.pymin
          (PyF.mul r.pvalue (PyF.val (((diffAbundance tt md df).1.length : ℕ) : ℚ)))
          (PyF.val 1)) ∧
      (∀ r ∈ (diffAbundance tt md df).1, PyF.lt (PyF.val 1) r.padj = false) ∧
      (∀ r ∈ (diffAbundance tt md df).1, ∀ q : ℚ, r.pvalue = PyF.val q →
        0 ≤ q → q ≤ 1 → ∃ q2 : ℚ, r.padj = PyF.val q2 ∧ q ≤ q2 ∧ q2 ≤ 1) := by
    refine ⟨diffAbundance_length tt md df, fun r hr => diffAbundance_padj tt md df r hr,
      fun r hr => ?_, fun r hr q hq hq0 hq1 => ?_⟩
    · rw [diffAbundance_padj tt md df r hr]
      rcases r.pvalue with _ | p
      · simp [PyF.mul, PyF.pymin, PyF.lt]
      · simp only [PyF.mul, PyF.pymin, PyF.lt]
        split_ifs with h
        · simp [PyF.lt]
        · simpa [PyF.lt] using h
    · rw [diffAbundance_padj tt md df r hr, hq]
      have hn : (1 : ℚ) ≤ (((diffAbundance tt md df).1.length : ℕ) : ℚ) := by
        have : 1 ≤ (diffAbundance tt md df).1.length := List.length_pos.2 (by
          intro hnil
          rw [hnil] at hr
          exact (List.not_mem_nil r) hr)
        exact_mod_cast this
      set n : ℚ := (((diffAbundance tt md df).1.length : ℕ) : ℚ) with hnq
      have hqn : q ≤ qMul q n := by
        rw [qMul_eq]
        exact le_mul_of_one_le_right hq0 hn
      simp only [PyF.mul, PyF.pymin, PyF.lt]
      split_ifs with h
      · exact ⟨1, rfl, hq1, le_refl 1⟩
      · simp only [decide_eq_true_eq, not_lt] at h
        exact ⟨qMul q n, rfl, hqn, h⟩
  exact ⟨key, key⟩

/-- Witness for C2 at a concrete run: two features with raw p-value 1/10,
adjusted to 2/10, which lies between 1/10 and 1. -/
theorem C2_padj_formula_witness :
    ∃ q2 : ℚ,
      ({ feature := "F1", meanInfected := PyF.val 3, meanControl := PyF.val 1,
         log2FoldChange := PyF.val 2, pvalue := PyF.val (mkRat 1 10),
         padj := PyF.val (mkRat 1 5) } : ResRow).padj = PyF.val q2 ∧
      mkRat 1 10 ≤ q2 ∧ q2 ≤ 1 := by
  exact ((C2_padj_formula (fun _ _ => PyF.val (mkRat 1 10))
      [("S1", "Infected"), ("S2", "Infected"), ("S3", "Control"), ("S4", "Control")]
      [("F1", fun s => if s == "S1" || s == "S2" then 3 else 1),
       ("F2", fun _ => 7)]).1.2.2.2 _ (by decide) (mkRat 1 10) (by decide)
      (by decide) (by decide))

theorem diffAbundance_features (tt : TTest) (md : Metadata) (df : DataFrame) :
    (diffAbundance tt md df).1.map (·.feature) = df.map (·.1) := by
  rw [diffAbundance_fst, List.map_map, List.map_map]
  rfl

theorem diffAbundance_nan_not_sig (tt : TTest) (md : Metadata) (df : DataFrame) (r : ResRow)
    (hr : r ∈ (diffAbundance tt md df).1) (hnan : r.pvalue = PyF.nan) :
    r ∉ (diffAbundance tt md df).2 := by
  intro hmem
  have hs := (mem_diffAbundance_sig tt md df r).1 hmem
  have hp : r.padj = PyF.nan := by
    rw [diffAbundance_padj tt md df r hr, hnan]
    rfl
  have hfalse : sigPred r = false := by
    simp [sigPred, hp, PyF.lt]
  rw [hs.2] at hfalse
  simp at hfalse

/-- C3 counterexample: a three-feature dataset whose first feature is the
constant 5 in every sample (zero variance in both groups; scipy's
`ttest_ind` returns a `nan` p-value there).  The engine does not exclude
the feature: the result table still lists all three features, the first
with p-value `nan` -- contradicting the claimed `ComputationError`
exclusion-and-count semantics, which exist nowhere in the scripts. -/
theorem C3_counterexample :
    ((analyzeProteomics
        (fun iv cv => if iv == [(5 : ℚ), 5] && cv == [(5 : ℚ), 5] then PyF.nan
          else PyF.val (mkRat 1 100))
        [("S1", "Infected"), ("S2", "Infected"), ("S3", "Control"), ("S4", "Control")]
        [("F1", fun _ => 5),
         ("F2", fun s => if s == "S1" || s == "S2" then 3 else 1),
         ("F3", fun s => if s == "S1" || s == "S2" then 9 else 1)]).1.map (·.feature) =
      ["F1", "F2", "F3"]) ∧
    ((analyzeProteomics
        (fun iv cv => if iv == [(5 : ℚ), 5] && cv == [(5 : ℚ), 5] then PyF.nan
          else PyF.val (mkRat 1 100))
        [("S1", "Infected"), ("S2", "Infected"), ("S3", "Control"), ("S4", "Control")]
        [("F1", fun _ => 5),
         ("F2", fun s => if s == "S1" || s == "S2" then 3 else 1),
         ("F3", fun s => if s == "S1" || s == "S2" then 9 else 1)]).1.map (·.pvalue)).head? =
      some PyF.nan := by
  exact ⟨by decide, by decide⟩

/-- C3 amended: a zero-variance feature (undefined, `nan` p-value) is NOT
excluded and no `ComputationError` mechanism exists: both engines emit
exactly one row per input feature (nothing is dropped, one bad feature
never aborts the batch), and a `nan`-p-value row simply never reaches the
significant subset. -/
theorem C3_no_exclusion (tt : TTest) (md : Metadata) (df : DataFrame) :
    ((analyzeProteomics tt md df).1.map (·.feature) = df.map (·.1) ∧
      ∀ r ∈ (analyzeProteomics tt md df).1, r.pvalue = PyF.nan →
        r ∉ (analyzeProteomics tt md df).2) ∧
    ((analyzeMetabolomics tt md df).1.map (·.feature) = df.map (·.1) ∧
      ∀ r ∈ (analyzeMetabolomics tt md df).1, r.pvalue = PyF.nan →
        r ∉ (analyzeMetabolomics tt md df).2) := by
  exact ⟨⟨diffAbundance_features tt md df,
      fun r hr hnan => diffAbundance_nan_not_sig tt md df r hr hnan⟩,
    ⟨diffAbundance_features tt md df,
      fun r hr hnan => diffAbundance_nan_not_sig tt md df r hr hnan⟩⟩

/-- Witness for C3 amended at a concrete run: the constant feature's row
is in the result table with p-value `nan` and is kept out of the
significant subset. -/
theorem C3_no_exclusion_witness :
    ({ feature := "F1", meanInfected := PyF.val 5, meanControl := PyF.val 5,
       log2FoldChange := PyF.val 0, pvalue := PyF.nan, padj := PyF.nan } : ResRow) ∉
      (analyzeProteomics (fun iv cv => if iv == [(5 : ℚ), 5] && cv == [(5 : ℚ), 5]
          then PyF.nan else PyF.val (mkRat 1 100))
        [("S1", "Infected"), ("S2", "Infected"), ("S3", "Control"), ("S4", "Control")]
        [("F1", fun _ => 5),
         ("F2", fun s => if s == "S1" || s == "S2" then 3 else 1)]).2 := by
  exact (C3_no_exclusion
      (fun iv cv => if iv == [(5 : ℚ), 5] && cv == [(5 : ℚ), 5] then PyF.nan
        else PyF.val (mkRat 1 100))
      [("S1", "Infected"), ("S2", "Infected"), ("S3", "Control"), ("S4", "Control")]
      [("F1", fun _ => 5),
       ("F2", fun s => if s == "S1" || s == "S2" then 3 else 1)]).1.2 _ (by decide) (by decide)

/-- C4 counterexample: two features where the second is the first scaled
by 2 (a two-sample t statistic is invariant under scaling both groups, and
scaling by 2 is exact in floating point, so scipy returns the same p-value
for both; the oracle here returns 1/1000 for both accordingly).  Both rows
are significant with equal adjusted p-value 1/500, and on this two-row
input (where numpy's sort is its stable insertion sort) the significant
sequence comes out with absolute fold change 1 BEFORE 2 -- so ties are
not broken by descending |effect size| as claimed. -/
theorem C4_counterexample :
    ((analyzeProteomics (fun _ _ => PyF.val (mkRat 1 1000))
        [("S1", "Infected"), ("S2", "Infected"), ("S3", "Control"), ("S4", "Control")]
        [("F1", fun s => if s == "S1" || s == "S2" then 2 else 1),
         ("F2", fun s => if s == "S1" || s == "S2" then 4 else 2)]).2.map
        (fun r => (r.padj, PyF.fabs r.log2FoldChange))) =
      [(PyF.val (mkRat 1 500), PyF.val 1), (PyF.val (mkRat 1 500), PyF.val 2)] := by
  decide

/-- C4 amended: the significant sequence is sorted ascending by adjusted
p-value (`nan` ordered last) and is a permutation of the mask-filtered
rows; no descending-|effect size| tie-break is applied (see the
counterexample), and no particular order among equal adjusted p-values is
guaranteed. -/
theorem C4_sig_sorted (tt : TTest) (md : Metadata) (df : DataFrame) :
    (List.Sorted padjLe (analyzeProteomics tt md df).2 ∧
      ((analyzeProteomics tt md df).2).Perm
        ((analyzeProteomics tt md df).1.filter sigPred)) ∧
    (List.Sorted padjLe (analyzeMetabolomics tt md df).2 ∧
      ((analyzeMetabolomics tt md df).2).Perm
        ((analyzeMetabolomics tt md df).1.filter sigPred)) := by
  exact ⟨⟨List.sorted_insertionSort padjLe _, List.perm_insertionSort padjLe _⟩,
    ⟨List.sorted_insertionSort padjLe _, List.perm_insertionSort padjLe _⟩⟩

theorem diffAbundance_nan_row (tt : TTest) (md : Metadata) (df : DataFrame)
    (p : String × (String → ℚ)) (hp : p ∈ df)
    (hnan : tt ((infectedSamples md).map p.2) ((controlSamples md).map p.2) = PyF.nan) :
    (withPadj df.length (rawRow tt md p)) ∈ (diffAbundance tt md df).1 ∧
      (withPadj df.length (rawRow tt md p)).pvalue = PyF.nan ∧
      (withPadj df.length (rawRow tt md p)).padj =
        PyF.pymin (PyF.mul PyF.nan (PyF.val ((df.length : ℕ) : ℚ))) (PyF.val 1) ∧
      (withPadj df.length (rawRow tt md p)).padj = PyF.nan ∧
      (withPadj df.length (rawRow tt md p)) ∉ (diffAbundance tt md df).2 := by
  have hpv : (rawRow tt md p).pvalue = PyF.nan := hnan
  have hmem : (withPadj df.length (rawRow tt md p)) ∈ (diffAbundance tt md df).1 := by
    rw [diffAbundance_fst]
    exact List.mem_map_of_mem _ (List.mem_map_of_mem _ hp)
  have hpv2 : (withPadj df.length (rawRow tt md p)).pvalue = PyF.nan := hpv
  have hpadj : (withPadj df.length (rawRow tt md p)).padj =
      PyF.pymin (PyF.mul PyF.nan (PyF.val ((df.length : ℕ) : ℚ))) (PyF.val 1) := by
    simp [withPadj, hpv]
  refine ⟨hmem, hpv2, hpadj, ?_, ?_⟩
  · rw [hpadj]
    rfl
  · exact diffAbundance_nan_not_sig tt md df _ hmem hpv2

/-- C10 (implicit): when the external t-test returns an undefined (`nan`)
p-value for a feature -- e.g. zero variance in both groups -- both engines
still emit exactly one row per input feature in input order; the `nan`
feature's row has adjusted p-value `min(nan * n, 1.0)`, which is `nan`,
and the row never reaches the significant subset because `nan < 0.05`
evaluates to false. -/
theorem C10_nan_row_semantics (tt : TTest) (md : Metadata) (df : DataFrame) :
    ((analyzeProteomics tt md df).1.map (·.feature) = df.map (·.1) ∧
      ∀ p ∈ df,
        tt ((infectedSamples md).map p.2) ((controlSamples md).map p.2) = PyF.nan →
          (withPadj df.length (rawRow tt md p)) ∈ (analyzeProteomics tt md df).1 ∧
          (withPadj df.length (rawRow tt md p)).pvalue = PyF.nan ∧
          (withPadj df.length (rawRow tt md p)).padj =
            PyF.pymin (PyF.mul PyF.nan (PyF.val ((df.length : ℕ) : ℚ))) (PyF.val 1) ∧
          (withPadj df.length (rawRow tt md p)).padj = PyF.nan ∧
          (withPadj df.length (rawRow tt md p)) ∉ (analyzeProteomics tt md df).2) ∧
    ((analyzeMetabolomics tt md df).1.map (·.feature) = df.map (·.1) ∧
      ∀ p ∈ df,
        tt ((infectedSamples md).map p.2) ((controlSamples md).map p.2) = PyF.nan →
          (withPadj df.length (rawRow tt md p)) ∈ (analyzeMetabolomics tt md df).1 ∧
          (withPadj df.length (rawRow tt md p)).pvalue = PyF.nan ∧
          (withPadj df.length (rawRow tt md p)).padj =
            PyF.pymin (PyF.mul PyF.nan (PyF.val ((df.length : ℕ) : ℚ))) (PyF.val 1) ∧
          (withPadj df.length (rawRow tt md p)).padj = PyF.nan ∧
          (withPadj df.length (rawRow tt md p)) ∉ (analyzeMetabolomics tt md df).2) := by
  exact ⟨⟨diffAbundance_features tt md df,
      fun p hp hnan => diffAbundance_nan_row tt md df p hp hnan⟩,
    ⟨diffAbundance_features tt md df,
      fun p hp hnan => diffAbundance_nan_row tt md df p hp hnan⟩⟩

/-- Witness for C10 at a concrete run: the all-5 constant feature yields a
row with `nan` p-value that stays out of the significant subset. -/
theorem C10_nan_row_semantics_witness :
    (withPadj 2
        (rawRow (fun iv cv => if iv == [(5 : ℚ), 5] && cv == [(5 : ℚ), 5] then PyF.nan
            else PyF.val (mkRat 1 100))
          [("S1", "Infected"), ("S2", "Infected"), ("S3", "Control"), ("S4", "Control")]
          ("F1", fun _ => 5))).padj = PyF.nan := by
  exact ((C10_nan_row_semantics
      (fun iv cv => if iv == [(5 : ℚ), 5] && cv == [(5 : ℚ), 5] then PyF.nan
        else PyF.val (mkRat 1 100))
      [("S1", "Infected"), ("S2", "Infected"), ("S3", "Control"), ("S4", "Control")]
      [("F1", fun _ => 5),
       ("F2", fun s => if s == "S1" || s == "S2" then 3 else 1)]).1.2
      ("F1", fun _ => 5) (List.mem_cons_self _ _) (by decide)).2.2.2.1

/-- C5 counterexample: result tables with exactly one matched feature
(`G1`, a valid enumeration of the one-element index intersection).  The
correlator returns normally with an empty summary list -- no
`InsufficientDataError` is raised (no such error exists anywhere in the
scripts); the pair is silently skipped. -/
theorem C5_counterexample :
    validCommonEnum ["G1"] [("G1", (1 : ℚ))] [("G1", (2 : ℚ))] ∧
    correlateOmicsLayers (fun _ _ => (PyF.val 0, PyF.val 0))
        (fun _ _ => (PyF.val 0, PyF.val 0))
        (some [("G1", 1)]) (some [("G1", 2)]) none ["G1"] = some [] := by
  refine ⟨⟨by decide, fun x => ?_⟩, by decide⟩
  simp

/-- C5 amended: with fewer than 2 matched features the correlator silently
appends no summary record for that pair (returning normally, raising
nothing); with 2 or more matched features it returns the summary whose
Pearson and Spearman fields are the external calls applied to the two
matched effect-size vectors. -/
theorem C5_insufficient_pairs (pe sp : CorrTest) (rt pt : FCTable) (e : List String) :
    (e.length < 2 →
      correlateOmicsLayers pe sp (some rt) (some pt) none e = some []) ∧
    (2 ≤ e.length →
      correlateOmicsLayers pe sp (some rt) (some pt) none e =
        some [{ comparison := "RNA-seq vs Proteomics"
                nFeatures := e.length
                pearsonR := (pe (e.map (fcLookup rt)) (e.map (fcLookup pt))).1
                pearsonP := (pe (e.map (fcLookup rt)) (e.map (fcLookup pt))).2
                spearmanR := (sp (e.map (fcLookup rt)) (e.map (fcLookup pt))).1
                spearmanP := (sp (e.map (fcLookup rt)) (e.map (fcLookup pt))).2 }]) := by
  constructor <;> intro h
  · have hlt : ¬ (1 < e.length) := by omega
    simp [correlateOmicsLayers, corrBranch1, corrBranch2, hlt]
  · have hlt : 1 < e.length := by omega
    simp [correlateOmicsLayers, corrBranch1, corrBranch2, hlt]

/-- Witness for C5 amended at concrete runs: one matched feature yields an
empty summary list; two matched features yield the one-record summary. -/
theorem C5_insufficient_pairs_witness :
    correlateOmicsLayers (fun _ _ => (PyF.val 0, PyF.val 0))
        (fun _ _ => (PyF.val 0, PyF.val 0))
        (some [("G1", 1)]) (some [("G1", 2)]) none ["G1"] = some [] ∧
    correlateOmicsLayers (fun _ _ => (PyF.val 0, PyF.val 0))
        (fun _ _ => (PyF.val 0, PyF.val 0))
        (some [("A", 1), ("B", 2)]) (some [("A", 3), ("B", 4)]) none ["A", "B"] =
      some [{ comparison := "RNA-seq vs Proteomics"
              nFeatures := 2
              pearsonR := PyF.val 0
              pearsonP := PyF.val 0
              spearmanR := PyF.val 0
              spearmanP := PyF.val 0 }] := by
  exact ⟨(C5_insufficient_pairs (fun _ _ => (PyF.val 0, PyF.val 0))
      (fun _ _ => (PyF.val 0, PyF.val 0)) [("G1", 1)] [("G1", 2)] ["G1"]).1 (by decide),
    (C5_insufficient_pairs (fun _ _ => (PyF.val 0, PyF.val 0))
      (fun _ _ => (PyF.val 0, PyF.val 0)) [("A", 1), ("B", 2)] [("A", 3), ("B", 4)]
      ["A", "B"]).2 (by decide)⟩

/-- C6 counterexample: positional matching with two six-row tables.  The
code caps the match at `min(5, n_a, n_b) = 5` pairs (script 06 line 115),
not the claimed `min(n_a, n_b) = 6`. -/
theorem C6_counterexample :
    correlateOmicsLayers (fun _ _ => (PyF.val 0, PyF.val 0))
        (fun _ _ => (PyF.val 0, PyF.val 0))
        none
        (some [("P1", 1), ("P2", 2), ("P3", 3), ("P4", 4), ("P5", 5), ("P6", 6)])
        (some [("M1", 1), ("M2", 2), ("M3", 3), ("M4", 4), ("M5", 5), ("M6", 6)])
        [] =
      some [{ comparison := "Proteomics vs Metabolomics"
              nFeatures := 5
              pearsonR := PyF.val 0
              pearsonP := PyF.val 0
              spearmanR := PyF.val 0
              spearmanP := PyF.val 0 }] ∧
    ([("P1", (1 : ℚ)), ("P2", 2), ("P3", 3), ("P4", 4), ("P5", 5), ("P6", 6)].length = 6 ∧
     [("M1", (1 : ℚ)), ("M2", 2), ("M3", 3), ("M4", 4), ("M5", 5), ("M6", 6)].length = 6) := by
  exact ⟨by decide, by decide, by decide⟩

/-- C6 amended: positional matching takes the first
`min(5, n_a, n_b)` entries of the two sequences in their given order (the
hardcoded cap of 5 from script 06 line 115 included), producing the
summary from those prefixes when more than one pair results and silently
nothing otherwise. -/
theorem C6_positional_matching (pe sp : CorrTest) (pt mt : FCTable) (e : List String) :
    (1 < min 5 (min pt.length mt.length) →
      correlateOmicsLayers pe sp none (some pt) (some mt) e =
        some [{ comparison := "Proteomics vs Metabolomics"
                nFeatures := min 5 (min pt.length mt.length)
                pearsonR := (pe ((pt.take (min 5 (min pt.length mt.length))).map Prod.snd)
                    ((mt.take (min 5 (min pt.length mt.length))).map Prod.snd)).1
                pearsonP := (pe ((pt.take (min 5 (min pt.length mt.length))).map Prod.snd)
                    ((mt.take (min 5 (min pt.length mt.length))).map Prod.snd)).2
                spearmanR := (sp ((pt.take (min 5 (min pt.length mt.length))).map Prod.snd)
                    ((mt.take (min 5 (min pt.length mt.length))).map Prod.snd)).1
                spearmanP := (sp ((pt.take (min 5 (min pt.length mt.length))).map Prod.snd)
                    ((mt.take (min 5 (min pt.length mt.length))).map Prod.snd)).2 }]) ∧
    (min 5 (min pt.length mt.length) ≤ 1 →
      correlateOmicsLayers pe sp none (some pt) (some mt) e = some []) := by
  constructor <;> intro h
  · simp [correlateOmicsLayers, corrBranch1, corrBranch2, h]
  · have hlt : ¬ (1 < min 5 (min pt.length mt.length)) := by omega
    simp [correlateOmicsLayers, corrBranch1, corrBranch2, hlt]

/-- Witness for C6 amended at a concrete run: three-row tables match
exactly their first three entries. -/
theorem C6_positional_matching_witness :
    correlateOmicsLayers (fun _ _ => (PyF.val 0, PyF.val 0))
        (fun _ _ => (PyF.val 0, PyF.val 0))
        none (some [("P1", 1), ("P2", 2), ("P3", 3)])
        (some [("M1", 4), ("M2", 5), ("M3", 6)]) [] =
      some [{ comparison := "Proteomics vs Metabolomics"
              nFeatures := 3
              pearsonR := PyF.val 0
              pearsonP := PyF.val 0
              spearmanR := PyF.val 0
              spearmanP := PyF.val 0 }] := by
  exact (C6_positional_matching (fun _ _ => (PyF.val 0, PyF.val 0))
    (fun _ _ => (PyF.val 0, PyF.val 0)) [("P1", 1), ("P2", 2), ("P3", 3)]
    [("M1", 4), ("M2", 5), ("M3", 6)] []).1 (by decide)

/-! Helper lemmas about the annotation mapper. -/

theorem filter_pathwayEdges_self (um : List (String × String)) (row : SigRow) :
    (pathwayEdges um row).filter (fun e => e.protein == row.protein) =
      pathwayEdges um row := by
  apply List.filter_eq_self.2
  intro e he
  rcases List.mem_map.1 he with ⟨pw, _, rfl⟩
  simp

theorem filter_pathwayEdges_ne (um : List (String × String)) (row other : SigRow)
    (h : other.protein ≠ row.protein) :
    (pathwayEdges um other).filter (fun e => e.protein == row.protein) = [] := by
  rw [List.filter_eq_nil_iff]
  intro e he
  rcases List.mem_map.1 he with ⟨pw, _, rfl⟩
  simpa using h

theorem filter_flatMap_edges_nil (um : List (String × String)) (tl : List SigRow)
    (p : String) (h : ∀ b ∈ tl, b.protein ≠ p) :
    (tl.flatMap (pathwayEdges um)).filter (fun e => e.protein == p) = [] := by
  rw [List.filter_eq_nil_iff]
  intro e he
  rcases List.mem_flatMap.1 he with ⟨b, hb, hbe⟩
  rcases List.mem_map.1 hbe with ⟨pw, _, rfl⟩
  simpa using h b hb

theorem filter_primary_edges (um : List (String × String)) (sig : List SigRow)
    (hnd : (sig.map (·.protein)).Nodup) (row : SigRow) (hrow : row ∈ sig) :
    (sig.flatMap (pathwayEdges um)).filter (fun e => e.protein == row.protein) =
      pathwayEdges um row := by
  induction sig with
  | nil => cases hrow
  | cons a tl ih =>
    rw [List.flatMap_cons, List.filter_append]
    rw [List.map_cons, List.nodup_cons] at hnd
    rcases List.mem_cons.1 hrow with rfl | htl
    · rw [filter_pathwayEdges_self um row]
      rw [filter_flatMap_edges_nil um tl row.protein
        (fun b hb hbp => hnd.1 (hbp ▸ List.mem_map_of_mem (·.protein) hb))]
      rw [List.append_nil]
    · have hne : a.protein ≠ row.protein := by
        intro hap
        exact hnd.1 (hap ▸ List.mem_map_of_mem (·.protein) htl)
      rw [filter_pathwayEdges_ne um row a hne, List.nil_append]
      exact ih hnd.2 htl

theorem kegg_values_nonempty (p : String)
    (hp : dictGet keggPathwaysTable p [] = []) :
    p ∉ keggPathwaysTable.map Prod.fst := by
  intro hmem
  have hcases : p = "IL6" ∨ p = "TNF" ∨ p = "IFNG" ∨ p = "IL1B" ∨ p = "NFKB1" ∨
      p = "STAT1" ∨ p = "JAK1" ∨ p = "JAK2" ∨ p = "TLR4" := by
    simpa [keggPathwaysTable] using hmem
  rcases hcases with rfl | rfl | rfl | rfl | rfl | rfl | rfl | rfl | rfl <;>
    simp [dictGet, keggPathwaysTable] at hp

theorem filter_fallback_edges_nil (um : List (String × String)) (p : String)
    (hp : dictGet keggPathwaysTable p [] = []) :
    (fallbackEdges um).filter (fun e => e.protein == p) = [] := by
  rw [List.filter_eq_nil_iff]
  intro e he
  rcases List.mem_flatMap.1 he with ⟨q, hq, hqe⟩
  rcases List.mem_map.1 hqe with ⟨pw, hpw, rfl⟩
  simp only [beq_iff_eq, ne_eq]
  intro hqp
  rw [hqp] at hpw
  rw [hp] at hpw
  exact List.not_mem_nil pw hpw

/-- C7: for any significant-result sequence (with its feature identifiers
distinct, as the engines guarantee) and any feature row in it, the edges
the mapper attributes to that feature are exactly one per KEGG annotation
of the feature -- each carrying the annotation, the feature's
`log2FoldChange` and `padj` -- and zero when the feature is absent from
the annotation table; an absent feature is not an error.  This holds
through the hardcoded fallback block as well. -/
theorem C7_mapper_edges (sig : List SigRow) (um : List (String × String))
    (hnd : (sig.map (·.protein)).Nodup) (row : SigRow) (hrow : row ∈ sig) :
    (mapProteinsToPathways sig um).filter (fun e => e.protein == row.protein) =
      (dictGet keggPathwaysTable row.protein []).map (fun pw =>
        { protein := row.protein
          uniprotId := dictGet um row.protein "Unknown"
          pathway := pw
          log2FoldChange := row.log2FoldChange
          padj := row.padj }) := by
  have hpe : pathwayEdges um row =
      (dictGet keggPathwaysTable row.protein []).map (fun pw =>
        { protein := row.protein
          uniprotId := dictGet um row.protein "Unknown"
          pathway := pw
          log2FoldChange := row.log2FoldChange
          padj := row.padj }) := rfl
  unfold mapProteinsToPathways
  by_cases hemp : (sig.flatMap (pathwayEdges um)).isEmpty
  · rw [if_pos hemp]
    have hself : pathwayEdges um row = [] := by
      rcases List.isEmpty_iff.1 hemp with hnil
      have := List.flatMap_eq_nil_iff.1 hnil row hrow
      exact this
    have hget : dictGet keggPathwaysTable row.protein [] = [] := by
      rw [hpe] at hself
      exact List.map_eq_nil_iff.1 hself
    rw [filter_fallback_edges_nil um row.protein hget, hget]
    rfl
  · rw [if_neg hemp]
    rw [filter_primary_edges um sig hnd row hrow, hpe]

/-- Witness for C7 at a concrete input: `IL6` (two KEGG annotations) gets
exactly its two pathway edges carrying its fold change and p-value, and a
feature absent from the table gets zero edges. -/
theorem C7_mapper_edges_witness :
    ((mapProteinsToPathways
        [{ protein := "IL6", log2FoldChange := PyF.val 2, padj := PyF.val (mkRat 1 1000) },
         { protein := "Protein_7", log2FoldChange := PyF.val 3, padj := PyF.val (mkRat 1 2000) }]
        uniprotMappingTable).filter (fun e => e.protein == "IL6")).length = 2 ∧
    ((mapProteinsToPathways
        [{ protein := "IL6", log2FoldChange := PyF.val 2, padj := PyF.val (mkRat 1 1000) },
         { protein := "Protein_7", log2FoldChange := PyF.val 3, padj := PyF.val (mkRat 1 2000) }]
        uniprotMappingTable).filter (fun e => e.protein == "Protein_7")).length = 0 := by
  constructor
  · rw [C7_mapper_edges
      [{ protein := "IL6", log2FoldChange := PyF.val 2, padj := PyF.val (mkRat 1 1000) },
       { protein := "Protein_7", log2FoldChange := PyF.val 3, padj := PyF.val (mkRat 1 2000) }]
      uniprotMappingTable (by decide)
      { protein := "IL6", log2FoldChange := PyF.val 2, padj := PyF.val (mkRat 1 1000) }
      (by decide)]
    decide
  · rw [C7_mapper_edges
      [{ protein := "IL6", log2FoldChange := PyF.val 2, padj := PyF.val (mkRat 1 1000) },
       { protein := "Protein_7", log2FoldChange := PyF.val 3, padj := PyF.val (mkRat 1 2000) }]
      uniprotMappingTable (by decide)
      { protein := "Protein_7", log2FoldChange := PyF.val 3, padj := PyF.val (mkRat 1 2000) }
      (by decide)]
    decide

/-- C8 counterexample: a two-stage pipeline whose first stage exists but
fails.  The orchestrator records the failure and `break`s: the second,
independent stage is never run and never appears in the results --
contradicting the claimed per-layer isolation. -/
theorem C8_counterexample :
    runPipeline
        [{ descr := "RNA-seq Analysis (PyDESeq2)", onDisk := true, runSucceeds := false },
         { descr := "Mass Spectrometry / Proteomics Analysis", onDisk := true,
           runSucceeds := true }] =
      [("RNA-seq Analysis (PyDESeq2)", false)] ∧
    "Mass Spectrometry / Proteomics Analysis" ∉
      (runPipeline
        [{ descr := "RNA-seq Analysis (PyDESeq2)", onDisk := true, runSucceeds := false },
         { descr := "Mass Spectrometry / Proteomics Analysis", onDisk := true,
           runSucceeds := true }]).map Prod.fst := by
  exact ⟨by decide, by decide⟩

/-- C8 amended: the orchestrator stops at the first stage whose run fails:
every earlier stage is recorded (a missing script as failed, without
stopping; a run as its success flag), the failing stage is recorded as
failed, and no later stage runs at all. -/
theorem C8_stop_on_failure (pre : List Script) (s : Script) (post : List Script)
    (hpre : ∀ t ∈ pre, t.onDisk = false ∨ t.runSucceeds = true)
    (hd : s.onDisk = true) (hf : s.runSucceeds = false) :
    runPipeline (pre ++ s :: post) =
      pre.map (fun t => (t.descr, t.onDisk && t.runSucceeds)) ++ [(s.descr, false)] := by
  induction pre with
  | nil => simp [runPipeline, hd, hf]
  | cons a tl ih =>
    have ihtl := ih (fun t ht => hpre t (List.mem_cons_of_mem a ht))
    rcases hpre a (List.mem_cons_self a tl) with h1 | h2
    · simp [runPipeline, h1, ihtl]
    · by_cases hb : a.onDisk = true
      · simp [runPipeline, hb, h2, ihtl]
      · have hb' : a.onDisk = false := by
          cases hx : a.onDisk
          · rfl
          · exact absurd hx hb
        simp [runPipeline, hb', ihtl]

/-- Witness for C8 amended at a concrete run: one succeeding stage, one
missing script, then a failing stage followed by a further stage; the
further stage does not appear. -/
theorem C8_stop_on_failure_witness :
    runPipeline
        [{ descr := "A", onDisk := true, runSucceeds := true },
         { descr := "B", onDisk := false, runSucceeds := true },
         { descr := "C", onDisk := true, runSucceeds := false },
         { descr := "D", onDisk := true, runSucceeds := true }] =
      [("A", true), ("B", false), ("C", false)] := by
  exact C8_stop_on_failure
    [{ descr := "A", onDisk := true, runSucceeds := true },
     { descr := "B", onDisk := false, runSucceeds := true }]
    { descr := "C", onDisk := true, runSucceeds := false }
    [{ descr := "D", onDisk := true, runSucceeds := true }]
    (by decide) rfl rfl

/-- C9: determinism of the engine and the correlator.  The engine's output
is a function of its inputs alone: equal metadata and matrix give equal
output values and ordering.  The correlator's summary is a pure function
of the two loaded tables and the matching strategy: the only hidden
state in the code -- the hash-dependent iteration order of
`list(set(a.index) & set(b.index))` -- does not influence the result,
because any two valid enumerations of the intersection are permutations of
each other and the correlation statistics are invariant under jointly
permuting the two matched vectors (as Pearson and Spearman are). -/
theorem C9_determinism :
    (∀ (tt : TTest) (md1 md2 : Metadata) (df1 df2 : DataFrame),
      md1 = md2 → df1 = df2 →
      analyzeProteomics tt md1 df1 = analyzeProteomics tt md2 df2) ∧
    (∀ (pe sp : CorrTest) (rt pt : FCTable) (m : Option FCTable) (e1 e2 : List String),
      (∀ (f g : String → ℚ) (u v : List String), u.Perm v →
        pe (u.map f) (u.map g) = pe (v.map f) (v.map g)) →
      (∀ (f g : String → ℚ) (u v : List String), u.Perm v →
        sp (u.map f) (u.map g) = sp (v.map f) (v.map g)) →
      validCommonEnum e1 rt pt → validCommonEnum e2 rt pt →
      correlateOmicsLayers pe sp (some rt) (some pt) m e1 =
        correlateOmicsLayers pe sp (some rt) (some pt) m e2) := by
  constructor
  · intro tt md1 md2 df1 df2 h1 h2
    rw [h1, h2]
  · intro pe sp rt pt m e1 e2 hpe hsp h1 h2
    have hperm : e1.Perm e2 := by
      rcases h1 with ⟨hn1, hm1⟩
      rcases h2 with ⟨hn2, hm2⟩
      exact (List.perm_ext_iff_of_nodup hn1 hn2).2 (fun x => by rw [hm1, hm2])
    have hb1 : corrBranch1 pe sp (some rt) (some pt) e1 =
        corrBranch1 pe sp (some rt) (some pt) e2 := by
      simp only [corrBranch1, hperm.length_eq,
        hpe (fcLookup rt) (fcLookup pt) e1 e2 hperm,
        hsp (fcLookup rt) (fcLookup pt) e1 e2 hperm]
    unfold correlateOmicsLayers
    rw [hb1]

/-- Witness for C9: the engine applied twice to one concrete input, and
the correlator applied to one concrete input under the two possible
enumeration orders of the two-element intersection, giving equal
results. -/
theorem C9_determinism_witness :
    analyzeProteomics (fun _ _ => PyF.val (mkRat 1 100))
        [("S1", "Infected"), ("S2", "Control")] [("F1", fun _ => 3)] =
      analyzeProteomics (fun _ _ => PyF.val (mkRat 1 100))
        [("S1", "Infected"), ("S2", "Control")] [("F1", fun _ => 3)] ∧
    correlateOmicsLayers (fun _ _ => (PyF.val 0, PyF.val 0))
        (fun _ _ => (PyF.val 0, PyF.val 0))
        (some [("A", 1), ("B", 2)]) (some [("A", 3), ("B", 4)]) none ["A", "B"] =
      correlateOmicsLayers (fun _ _ => (PyF.val 0, PyF.val 0))
        (fun _ _ => (PyF.val 0, PyF.val 0))
        (some [("A", 1), ("B", 2)]) (some [("A", 3), ("B", 4)]) none ["B", "A"] := by
  constructor
  · exact C9_determinism.1 (fun _ _ => PyF.val (mkRat 1 100))
      [("S1", "Infected"), ("S2", "Control")] [("S1", "Infected"), ("S2", "Control")]
      [("F1", fun _ => 3)] [("F1", fun _ => 3)] rfl rfl
  · exact C9_determinism.2 (fun _ _ => (PyF.val 0, PyF.val 0))
      (fun _ _ => (PyF.val 0, PyF.val 0)) [("A", 1), ("B", 2)] [("A", 3), ("B", 4)]
      none ["A", "B"] ["B", "A"]
      (fun _ _ _ _ _ => rfl) (fun _ _ _ _ _ => rfl)
      ⟨by decide, fun x => by simp⟩ ⟨by decide, fun x => by simp; tauto⟩

end MultiOmics
